import Mathlib

/-
Verification of the core of the libdft dynamic taint-tracking engine
(`libdft/src/libdft_api.c`): a shallow embedding of the instruction
dispatch table and its registration API, the syscall enter/exit
interceptor with its default tag-invalidation policy, the internal
exception handler, and the REG-to-VCPU index maps, together with
theorems about them.

Modelling conventions:
- Callback function pointers are opaque values (`CB := Nat`); a nullable
  pointer is an `Option`.  Invoking a callback is recorded as an event or
  a boolean, since the callbacks themselves are external to this core.
- Machine words (addresses, raw syscall argument words) are `Nat`; a
  null pointer is the value `0`.
- The process-wide shadow-memory tag store is a function `Nat → Bool`
  (address to "tainted" bit); `tagmap_clrn` is modelled from the spec
  because `tagmap.c` is not part of the sources at hand.
- The Pin substrate (CPU contexts, instruction handles, the REG
  enumeration) is external; it is modelled only at its interface.
-/

namespace Libdft

/-- Opaque callback (function-pointer) value; a nullable callback pointer
is modelled as `Option CB`. -/
abbrev CB := Nat

/-- Opaque instruction handle (Pin `INS`). -/
abbrev INS := Nat

/-- Modelled from the spec: the default-action values `INSDFL_ENABLE` and
`INSDFL_DISABLE` come from the repository header `libdft_api.h`, which is
not among the sources at hand.  `INSDFL_ENABLE` is the all-zero value:
`libdft_init` resets the descriptor table with `memset(..., 0, ...)` and
the built-in analyzer is enabled by default. -/
def INSDFL_ENABLE : Nat := 0

/-- Modelled from the spec: the "disabled" default-action value, distinct
from `INSDFL_ENABLE` (see `libdft_api.h`, not among the sources). -/
def INSDFL_DISABLE : Nat := 1

/-- Instruction descriptor (`ins_desc_t`): optional pre-instruction
callback, optional post-instruction callback, default-action flag. -/
structure ins_desc_t where
  pre : Option CB
  post : Option CB
  dflact : Nat
deriving DecidableEq

/-- Observable event emitted while dispatching one instruction:
a registered pre-hook firing, the built-in analyzer (`ins_inspect`)
firing, or a registered post-hook firing. -/
inductive InsEvent where
  | preHook (cb : CB) (ins : INS)
  | builtin (ins : INS)
  | postHook (cb : CB) (ins : INS)
deriving DecidableEq

/-- Whether an event is the built-in analyzer firing. -/
def InsEvent.isBuiltin : InsEvent → Bool
  | .builtin _ => true
  | _ => false

/-- The per-instruction body of `trace_inspect`: invoke the pre-hook if
registered, then the built-in analyzer if the default action is
`INSDFL_ENABLE`, then the post-hook if registered, appending the
corresponding events to the accumulated event list `evs`. -/
def ins_dispatch (d : ins_desc_t) (ins : INS) (evs : List InsEvent) : List InsEvent :=
  let evs1 := match d.pre with
    | some f => evs ++ [InsEvent.preHook f ins]
    | none => evs
  let evs2 := if d.dflact = INSDFL_ENABLE then evs1 ++ [InsEvent.builtin ins] else evs1
  match d.post with
  | some f => evs2 ++ [InsEvent.postHook f ins]
  | none => evs2

/-- `trace_inspect`: traverse the basic blocks of a trace in program
order and, within each block, the instructions in program order, and
dispatch each instruction through the descriptor of its opcode class.
`tbl` is the `ins_desc` table indexed by opcode ordinal, `opcodeOf`
the substrate's opcode decoder (`INS_Opcode`). -/
def trace_inspect (tbl : Nat → ins_desc_t) (opcodeOf : INS → Nat)
    (trace : List (List INS)) : List InsEvent :=
  trace.foldl
    (fun evs bbl =>
      bbl.foldl (fun evs ins => ins_dispatch (tbl (opcodeOf ins)) ins evs) evs)
    []

/-- `ins_set_pre`: install a pre-instruction callback.  The mutable
descriptor pointer is modelled as an `Option ins_desc_t` in and out
(`none` being the NULL pointer); the first component of the result is
the C return code (0 success, 1 failure). -/
def ins_set_pre (desc : Option ins_desc_t) (cb : Option CB) : Nat × Option ins_desc_t :=
  match desc, cb with
  | none, _ => (1, none)
  | some d, none => (1, some d)
  | some d, some f => (0, some { d with pre := some f })

/-- `ins_set_post`: install a post-instruction callback (see
`ins_set_pre` for the modelling of the pointer arguments). -/
def ins_set_post (desc : Option ins_desc_t) (cb : Option CB) : Nat × Option ins_desc_t :=
  match desc, cb with
  | none, _ => (1, none)
  | some d, none => (1, some d)
  | some d, some f => (0, some { d with post := some f })

/-- `ins_clr_pre`: remove the pre-instruction callback. -/
def ins_clr_pre (desc : Option ins_desc_t) : Nat × Option ins_desc_t :=
  match desc with
  | none => (1, none)
  | some d => (0, some { d with pre := none })

/-- `ins_clr_post`: remove the post-instruction callback. -/
def ins_clr_post (desc : Option ins_desc_t) : Nat × Option ins_desc_t :=
  match desc with
  | none => (1, none)
  | some d => (0, some { d with post := none })

/-- `ins_set_dflact`: set the default action of a descriptor; only
`INSDFL_ENABLE` and `INSDFL_DISABLE` are accepted. -/
def ins_set_dflact (desc : Option ins_desc_t) (action : Nat) : Nat × Option ins_desc_t :=
  match desc with
  | none => (1, none)
  | some d =>
    if action = INSDFL_ENABLE ∨ action = INSDFL_DISABLE then
      (0, some { d with dflact := action })
    else
      (1, some d)

/-- Syscall context (`syscall_ctx_t`): syscall number (signed, `-1` is the
"unknown" sentinel), the raw argument-word array (a total function on
indices, of which only slots 0..5 are meaningful), the return value, and
the opaque saved processor-state reference (`aux`, a nullable pointer). -/
structure syscall_ctx_t where
  nr : Int
  arg : Nat → Nat
  ret : Int
  aux : Option Nat

/-- Syscall descriptor (`syscall_desc_t`, external read-only table):
declared argument count, the "save arguments" flag, the "return value
feeds a callback" flag, the per-argument write-back length table
`map_args` (a total function on indices, of which only slots 0..5 are
meaningful), and the optional pre/post syscall callbacks. -/
structure syscall_desc_t where
  nargs : Nat
  save_args : Bool
  retval_args : Bool
  map_args : Nat → Nat
  pre : Option CB
  post : Option CB

/-- The argument-saving `switch` of `sysenter_save`: `case n` stores raw
argument word `n-1` and falls through to `case n-1`, so entering at
`nargs` stores words `nargs-1, ..., 0`; `nargs = 0` or `nargs > 6` hits
the default case and stores nothing.  `getArg` is the substrate's
`PIN_GetSyscallArgument`, `a` the current argument array. -/
def sys_saveargs_switch (getArg : Nat → Nat) (nargs : Nat) (a : Nat → Nat) : Nat → Nat :=
  match nargs with
  | 0 => a
  | n + 1 =>
    if n < 6 then sys_saveargs_switch getArg n (Function.update a n (getArg n))
    else a

/-- Result of the syscall-enter handler: the updated syscall context,
whether the registered pre-syscall callback was invoked, and whether the
unknown-syscall log message was emitted. -/
structure EnterResult where
  sctx : syscall_ctx_t
  preCalled : Bool
  logged : Bool

/-- `sysenter_save`: if the syscall number is at or beyond `SYSCALL_MAX`,
log and set the context number to the sentinel `-1`; otherwise store the
number and, when the descriptor's "save arguments" or "return feeds
callback" flag is set, capture the declared number of raw argument
words, snapshot the processor-state reference (`ctxRef`), and invoke the
pre-syscall callback if one is registered. -/
def sysenter_save (desc : Nat → syscall_desc_t) (SYSCALL_MAX : Nat)
    (syscall_nr : Nat) (getArg : Nat → Nat) (ctxRef : Nat)
    (sc : syscall_ctx_t) : EnterResult :=
  if SYSCALL_MAX ≤ syscall_nr then
    { sctx := { sc with nr := -1 }, preCalled := false, logged := true }
  else
    let sc1 : syscall_ctx_t := { sc with nr := (syscall_nr : Int) }
    let d := desc syscall_nr
    if d.save_args || d.retval_args then
      let sc2 : syscall_ctx_t :=
        { sc1 with
          arg := sys_saveargs_switch getArg d.nargs sc1.arg,
          aux := some ctxRef }
      { sctx := sc2, preCalled := d.pre.isSome, logged := false }
    else
      { sctx := sc1, preCalled := false, logged := false }

/-- Modelled from the spec: `tagmap_clrn` is implemented in `tagmap.c`,
which is not among the sources at hand; per the spec's external
interface ("clear N tag-bytes starting at a given address") it sets the
tag of every byte in the range `[addr, addr + n)` to untainted and
leaves every other byte unchanged. -/
def tagmap_clrn (addr n : Nat) (tag : Nat → Bool) : Nat → Bool :=
  fun a => if addr ≤ a ∧ a < addr + n then false else tag a

/-- The default-policy cleanup loop of `sysexit_save`: for each argument
index `i` below the declared argument count, if the write-back length
`map_args[i]` is positive and the captured argument word is a non-null
address, clear that many tag bytes starting at that address. -/
def sysexit_clear_args (d : syscall_desc_t) (arg : Nat → Nat) (tag : Nat → Bool) :
    Nat → Bool :=
  (List.range d.nargs).foldl
    (fun t i =>
      if 0 < d.map_args i then
        if arg i ≠ 0 then tagmap_clrn (arg i) (d.map_args i) t else t
      else t)
    tag

/-- Result of the syscall-exit handler: the updated syscall context, the
resulting shadow-memory tag store, whether the registered post-syscall
callback was invoked, and whether the unknown-syscall log message was
emitted. -/
structure ExitResult where
  sctx : syscall_ctx_t
  tag : Nat → Bool
  postCalled : Bool
  logged : Bool

/-- `sysexit_save`: if the stored syscall number is negative (sentinel),
log and return.  Otherwise, when the descriptor's "save arguments" or
"return feeds callback" flag is set, capture the return value and a
fresh processor-state reference; then invoke the post-syscall callback
if one is registered, and otherwise apply the default policy: do nothing
on a negative return value, and on a non-negative one run the
write-back cleanup loop over the captured arguments. -/
def sysexit_save (desc : Nat → syscall_desc_t) (retVal : Int) (ctxRef : Nat)
    (sc : syscall_ctx_t) (tag : Nat → Bool) : ExitResult :=
  if sc.nr < 0 then
    { sctx := sc, tag := tag, postCalled := false, logged := true }
  else
    let d := desc sc.nr.toNat
    if d.save_args || d.retval_args then
      let sc2 : syscall_ctx_t := { sc with ret := retVal, aux := some ctxRef }
      if d.post.isSome then
        { sctx := sc2, tag := tag, postCalled := true, logged := false }
      else if sc2.ret < 0 then
        { sctx := sc2, tag := tag, postCalled := false, logged := false }
      else
        { sctx := sc2, tag := sysexit_clear_args d sc2.arg tag,
          postCalled := false, logged := false }
    else
      { sctx := sc, tag := tag, postCalled := false, logged := false }

/-- Exception codes distinguished by `excpt_hdlr`: misaligned access,
access denied, and everything else (carrying the substrate's code). -/
inductive ExceptCode where
  | accessMisaligned
  | accessDenied
  | other (code : Nat)
deriving DecidableEq

/-- Exception descriptor: the code, and the faulting access address
(meaningful for access-denied faults). -/
structure ExceptInfo where
  code : ExceptCode
  faultAddr : Nat
deriving DecidableEq

/-- Physical processor state, exposing the EFLAGS register that the
handler may modify. -/
structure PhysicalContext where
  eflags : Nat
deriving DecidableEq

/-- The outcome of the exception handler: the handled/unhandled verdict,
or termination of the target application (`PIN_ExitApplication`) with an
exit code. -/
inductive ExceptVerdict where
  | handled
  | unhandled
  | terminated (exitCode : Int)
deriving DecidableEq

/-- Modelled from the spec: the macro `CLEAR_EFLAGS_AC` lives in the
repository header `libdft_api.h`, which is not among the sources at
hand; it clears the alignment-check bit (EFLAGS bit 18, as the comment
above `excpt_hdlr` records).  Written with the literals
`262144 = 2 ^ 18` and `524288 = 2 ^ 19`: the low 18 bits and the bits
from 19 up are kept, bit 18 is zeroed. -/
def CLEAR_EFLAGS_AC (flags : Nat) : Nat :=
  flags % 262144 + 524288 * (flags / 524288)

/-- Modelled from the spec: the macro `PAGE_ALIGN` lives in a repository
header that is not among the sources at hand; it resolves an address to
its containing page (4096-byte pages on IA-32). -/
def PAGE_ALIGN (addr : Nat) : Nat :=
  addr - addr % 4096

/-- `excpt_hdlr`: on a misaligned-access fault, clear EFLAGS.AC in the
physical state and report the fault handled; on an access-denied fault
whose page equals the reserved guard region `null_seg`, log and
terminate the application with exit code `-1`; otherwise report the
fault unhandled and leave the state unchanged. -/
def excpt_hdlr (null_seg : Nat) (e : ExceptInfo) (p : PhysicalContext) :
    ExceptVerdict × PhysicalContext :=
  match e.code with
  | .accessMisaligned =>
    (.handled, { eflags := CLEAR_EFLAGS_AC p.eflags })
  | .accessDenied =>
    if PAGE_ALIGN e.faultAddr = null_seg then (.terminated (-1), p)
    else (.unhandled, p)
  | .other _ => (.unhandled, p)

/-- Modelled from the spec: `GRP_NUM` comes from the repository header
`libdft_api.h`, which is not among the sources at hand; it is the
canonical-slot count of the shadow register file — eight canonical
32-bit registers. -/
def GRP_NUM : Nat := 8

/-
The Pin `REG` enumeration is external to this repository (it belongs to
the host instrumentation substrate and is specified only at its
interface); the register identifiers below are modelled as distinct
naturals below the enumeration bound `REG_LAST`.  Every property proved
about the index maps depends only on the identifiers being pairwise
distinct, not on their concrete values.
-/

/-- Enumeration bound of the Pin `REG` enumeration. -/
def REG_LAST : Nat := 64

/-- Pin identifier of the 32-bit register EDI. -/
def REG_EDI : Nat := 3

/-- Pin identifier of the 32-bit register ESI. -/
def REG_ESI : Nat := 4

/-- Pin identifier of the 32-bit register EBP. -/
def REG_EBP : Nat := 5

/-- Pin identifier of the 32-bit register ESP. -/
def REG_ESP : Nat := 6

/-- Pin identifier of the 32-bit register EBX. -/
def REG_EBX : Nat := 7

/-- Pin identifier of the 32-bit register EDX. -/
def REG_EDX : Nat := 8

/-- Pin identifier of the 32-bit register ECX. -/
def REG_ECX : Nat := 9

/-- Pin identifier of the 32-bit register EAX. -/
def REG_EAX : Nat := 10

/-- Pin identifier of the 16-bit register DI. -/
def REG_DI : Nat := 11

/-- Pin identifier of the 16-bit register SI. -/
def REG_SI : Nat := 12

/-- Pin identifier of the 16-bit register BP. -/
def REG_BP : Nat := 13

/-- Pin identifier of the 16-bit register SP. -/
def REG_SP : Nat := 14

/-- Pin identifier of the 16-bit register BX. -/
def REG_BX : Nat := 15

/-- Pin identifier of the 16-bit register DX. -/
def REG_DX : Nat := 16

/-- Pin identifier of the 16-bit register CX. -/
def REG_CX : Nat := 17

/-- Pin identifier of the 16-bit register AX. -/
def REG_AX : Nat := 18

/-- Pin identifier of the 8-bit register AL. -/
def REG_AL : Nat := 19

/-- Pin identifier of the 8-bit register AH. -/
def REG_AH : Nat := 20

/-- Pin identifier of the 8-bit register BL. -/
def REG_BL : Nat := 21

/-- Pin identifier of the 8-bit register BH. -/
def REG_BH : Nat := 22

/-- Pin identifier of the 8-bit register CL. -/
def REG_CL : Nat := 23

/-- Pin identifier of the 8-bit register CH. -/
def REG_CH : Nat := 24

/-- Pin identifier of the 8-bit register DL. -/
def REG_DL : Nat := 25

/-- Pin identifier of the 8-bit register DH. -/
def REG_DH : Nat := 26

/-- `REG32_INDX`: REG-to-VCPU map for 32-bit registers.  The eight
canonical registers map to the fixed slots 0..7; any other identifier
falls to the default case and maps to the overflow slot
`GRP_NUM + reg` (the C code asserts `reg < REG_LAST` there). -/
def REG32_INDX (reg : Nat) : Nat :=
  if reg = REG_EDI then 0
  else if reg = REG_ESI then 1
  else if reg = REG_EBP then 2
  else if reg = REG_ESP then 3
  else if reg = REG_EBX then 4
  else if reg = REG_EDX then 5
  else if reg = REG_ECX then 6
  else if reg = REG_EAX then 7
  else GRP_NUM + reg

/-- `REG16_INDX`: REG-to-VCPU map for 16-bit registers, mapping each
16-bit register to the slot of its 32-bit container (e.g. AX to EAX);
any other identifier maps to the overflow slot `GRP_NUM + reg`. -/
def REG16_INDX (reg : Nat) : Nat :=
  if reg = REG_DI then 0
  else if reg = REG_SI then 1
  else if reg = REG_BP then 2
  else if reg = REG_SP then 3
  else if reg = REG_BX then 4
  else if reg = REG_DX then 5
  else if reg = REG_CX then 6
  else if reg = REG_AX then 7
  else GRP_NUM + reg

/-- `REG8_INDX`: REG-to-VCPU map for 8-bit registers, mapping each
high/low byte register to the slot of its 32-bit container (e.g. AH
and AL to EAX); any other identifier maps to the overflow slot
`GRP_NUM + reg`. -/
def REG8_INDX (reg : Nat) : Nat :=
  if reg = REG_AH ∨ reg = REG_AL then 7
  else if reg = REG_CH ∨ reg = REG_CL then 6
  else if reg = REG_DH ∨ reg = REG_DL then 5
  else if reg = REG_BH ∨ reg = REG_BL then 4
  else GRP_NUM + reg

/-- Membership in the case list of `REG32_INDX` (the canonical 32-bit
registers). -/
def canon32 (reg : Nat) : Bool :=
  reg = REG_EDI || reg = REG_ESI || reg = REG_EBP || reg = REG_ESP ||
  reg = REG_EBX || reg = REG_EDX || reg = REG_ECX || reg = REG_EAX

/-- Membership in the case list of `REG16_INDX` (the named 16-bit
registers). -/
def canon16 (reg : Nat) : Bool :=
  reg = REG_DI || reg = REG_SI || reg = REG_BP || reg = REG_SP ||
  reg = REG_BX || reg = REG_DX || reg = REG_CX || reg = REG_AX

/-- Membership in the case list of `REG8_INDX` (the named 8-bit high/low
registers). -/
def canon8 (reg : Nat) : Bool :=
  reg = REG_AH || reg = REG_AL || reg = REG_CH || reg = REG_CL ||
  reg = REG_DH || reg = REG_DL || reg = REG_BH || reg = REG_BL

/-- Specification-side characterization of the default cleanup policy
(written after the spec's wording, to be compared with the loop in the
code): byte `a` is cleared exactly when some argument index `i` below
the declared count has a positive write-back length, a non-null
captured address, and `a` lies in the written-back range. -/
def cleared_by_default_policy (d : syscall_desc_t) (arg : Nat → Nat) (a : Nat) : Bool :=
  (List.range d.nargs).any fun i =>
    decide (0 < d.map_args i) && decide (arg i ≠ 0) &&
    decide (arg i ≤ a) && decide (a < arg i + d.map_args i)

/- ------------------------------------------------------------------ -/
/- Helper lemmas                                                      -/
/- ------------------------------------------------------------------ -/

/-- The fallthrough argument-saving switch stores exactly the raw words
at indices below `nargs` (for a declared count within the 6-slot array)
and leaves every other slot untouched. -/
theorem sys_saveargs_switch_apply (getArg : Nat → Nat) :
    ∀ (n : Nat), n ≤ 6 → ∀ (a : Nat → Nat) (i : Nat),
      sys_saveargs_switch getArg n a i = if i < n then getArg i else a i := by
  intro n
  induction n with
  | zero => intro _ a i; simp [sys_saveargs_switch]
  | succ n ih =>
    intro hn a i
    have hn6 : n < 6 := by omega
    simp only [sys_saveargs_switch, if_pos hn6]
    rw [ih (by omega)]
    by_cases hi : i < n
    · rw [if_pos hi, if_pos (by omega)]
    · rw [if_neg hi]
      by_cases he : i = n
      · subst he
        rw [Function.update_same, if_pos (by omega)]
      · rw [Function.update_noteq he, if_neg (by omega)]

/-- Dispatching one instruction appends its events to the accumulator. -/
theorem ins_dispatch_append (d : ins_desc_t) (ins : INS) (evs : List InsEvent) :
    ins_dispatch d ins evs = evs ++ ins_dispatch d ins [] := by
  unfold ins_dispatch
  cases d.pre <;> cases d.post <;>
    by_cases h : d.dflact = INSDFL_ENABLE <;>
    simp [h]

/-- Folding the per-instruction dispatch over a basic block appends, in
program order, each instruction's own events. -/
theorem foldl_ins_dispatch (tbl : Nat → ins_desc_t) (opcodeOf : INS → Nat) :
    ∀ (bbl : List INS) (evs : List InsEvent),
      bbl.foldl (fun evs ins => ins_dispatch (tbl (opcodeOf ins)) ins evs) evs
        = evs ++ bbl.flatMap (fun ins => ins_dispatch (tbl (opcodeOf ins)) ins []) := by
  intro bbl
  induction bbl with
  | nil => simp
  | cons x xs ih =>
    intro evs
    simp only [List.foldl_cons, List.flatMap_cons]
    rw [ih, ins_dispatch_append, List.append_assoc]

/-- Pointwise description of the write-back cleanup fold over the first
`n` argument indices. -/
theorem clear_args_range_apply (mapa arg : Nat → Nat) :
    ∀ (n : Nat) (tag : Nat → Bool) (a : Nat),
      ((List.range n).foldl
        (fun t i =>
          if 0 < mapa i then
            if arg i ≠ 0 then tagmap_clrn (arg i) (mapa i) t else t
          else t)
        tag) a
      = if ((List.range n).any fun i =>
            decide (0 < mapa i) && decide (arg i ≠ 0) &&
            decide (arg i ≤ a) && decide (a < arg i + mapa i)) then
          false
        else tag a := by
  intro n
  induction n with
  | zero => intro tag a; simp
  | succ n ih =>
    intro tag a
    rw [List.range_succ, List.foldl_append, List.any_append]
    simp only [List.foldl_cons, List.foldl_nil, List.any_cons, List.any_nil,
      Bool.or_false]
    by_cases h1 : 0 < mapa n
    · by_cases h2 : arg n ≠ 0
      · rw [if_pos h1, if_pos h2]
        by_cases h3 : arg n ≤ a ∧ a < arg n + mapa n
        · have hp : (decide (0 < mapa n) && decide (arg n ≠ 0) &&
              decide (arg n ≤ a) && decide (a < arg n + mapa n)) = true := by
            simp [h1, h2, h3.1, h3.2]
          simp only [tagmap_clrn]
          rw [if_pos h3, hp, Bool.or_true, if_pos rfl]
        · have hp : (decide (0 < mapa n) && decide (arg n ≠ 0) &&
              decide (arg n ≤ a) && decide (a < arg n + mapa n)) = false := by
            rcases not_and_or.mp h3 with h | h <;> simp [h]
          simp only [tagmap_clrn]
          rw [if_neg h3, hp, Bool.or_false]
          exact ih tag a
      · have hp : (decide (0 < mapa n) && decide (arg n ≠ 0) &&
            decide (arg n ≤ a) && decide (a < arg n + mapa n)) = false := by
          simp [h2]
        rw [if_pos h1, if_neg h2, hp, Bool.or_false]
        exact ih tag a
    · have hp : (decide (0 < mapa n) && decide (arg n ≠ 0) &&
          decide (arg n ≤ a) && decide (a < arg n + mapa n)) = false := by
        simp [h1]
      rw [if_neg h1, hp, Bool.or_false]
      exact ih tag a

/-- The cleanup loop of the default policy clears exactly the bytes
described by `cleared_by_default_policy` and touches no other byte. -/
theorem sysexit_clear_args_apply (d : syscall_desc_t) (arg : Nat → Nat)
    (tag : Nat → Bool) (a : Nat) :
    sysexit_clear_args d arg tag a
      = if cleared_by_default_policy d arg a then false else tag a := by
  unfold sysexit_clear_args cleared_by_default_policy
  exact clear_args_range_apply d.map_args arg d.nargs tag a

/-- Folding the per-block dispatch over a whole trace appends, in
program order, each basic block's events. -/
theorem foldl_trace_dispatch (tbl : Nat → ins_desc_t) (opcodeOf : INS → Nat) :
    ∀ (trace : List (List INS)) (evs : List InsEvent),
      trace.foldl
        (fun evs bbl =>
          bbl.foldl (fun evs ins => ins_dispatch (tbl (opcodeOf ins)) ins evs) evs)
        evs
      = evs ++ trace.flatMap (fun bbl =>
          bbl.flatMap (fun ins => ins_dispatch (tbl (opcodeOf ins)) ins [])) := by
  intro trace
  induction trace with
  | nil => intro evs; simp
  | cons b bs ih =>
    intro evs
    simp only [List.foldl_cons, List.flatMap_cons]
    rw [foldl_ins_dispatch, ih, List.append_assoc]

/-- Any identifier outside the case list of `REG32_INDX` maps to the
overflow slot `GRP_NUM + reg`. -/
theorem REG32_INDX_default (r : Nat) (h : canon32 r = false) :
    REG32_INDX r = GRP_NUM + r := by
  simp only [canon32, Bool.or_eq_false_iff, decide_eq_false_iff_not] at h
  obtain ⟨⟨⟨⟨⟨⟨⟨h1, h2⟩, h3⟩, h4⟩, h5⟩, h6⟩, h7⟩, h8⟩ := h
  simp [REG32_INDX, h1, h2, h3, h4, h5, h6, h7, h8]

/-- Any identifier outside the case list of `REG16_INDX` maps to the
overflow slot `GRP_NUM + reg`. -/
theorem REG16_INDX_default (r : Nat) (h : canon16 r = false) :
    REG16_INDX r = GRP_NUM + r := by
  simp only [canon16, Bool.or_eq_false_iff, decide_eq_false_iff_not] at h
  obtain ⟨⟨⟨⟨⟨⟨⟨h1, h2⟩, h3⟩, h4⟩, h5⟩, h6⟩, h7⟩, h8⟩ := h
  simp [REG16_INDX, h1, h2, h3, h4, h5, h6, h7, h8]

/-- Any identifier outside the case list of `REG8_INDX` maps to the
overflow slot `GRP_NUM + reg`. -/
theorem REG8_INDX_default (r : Nat) (h : canon8 r = false) :
    REG8_INDX r = GRP_NUM + r := by
  simp only [canon8, Bool.or_eq_false_iff, decide_eq_false_iff_not] at h
  obtain ⟨⟨⟨⟨⟨⟨⟨h1, h2⟩, h3⟩, h4⟩, h5⟩, h6⟩, h7⟩, h8⟩ := h
  simp [REG8_INDX, h1, h2, h3, h4, h5, h6, h7, h8]

/- ------------------------------------------------------------------ -/
/- Claim theorems                                                     -/
/- ------------------------------------------------------------------ -/

/-- C2: the register-to-slot mapping is total and deterministic (it is a
function): the eight canonical 32-bit registers map to the fixed slots
EDI=0, ESI=1, EBP=2, ESP=3, EBX=4, EDX=5, ECX=6, EAX=7; every 16-bit
sub-register under `REG16_INDX` and every 8-bit high/low sub-register
under `REG8_INDX` returns the same index as `REG32_INDX` of its
enclosing 32-bit register; and every identifier below `REG_LAST`
outside a map's case list goes to the overflow slot `GRP_NUM + reg`,
which never collides with the canonical slots 0-7 and never collides
across distinct identifiers. -/
theorem reg_indx_spec (r s : Nat) :
    (REG32_INDX REG_EDI = 0 ∧ REG32_INDX REG_ESI = 1 ∧ REG32_INDX REG_EBP = 2 ∧
      REG32_INDX REG_ESP = 3 ∧ REG32_INDX REG_EBX = 4 ∧ REG32_INDX REG_EDX = 5 ∧
      REG32_INDX REG_ECX = 6 ∧ REG32_INDX REG_EAX = 7)
    ∧ (REG16_INDX REG_DI = REG32_INDX REG_EDI ∧
       REG16_INDX REG_SI = REG32_INDX REG_ESI ∧
       REG16_INDX REG_BP = REG32_INDX REG_EBP ∧
       REG16_INDX REG_SP = REG32_INDX REG_ESP ∧
       REG16_INDX REG_BX = REG32_INDX REG_EBX ∧
       REG16_INDX REG_DX = REG32_INDX REG_EDX ∧
       REG16_INDX REG_CX = REG32_INDX REG_ECX ∧
       REG16_INDX REG_AX = REG32_INDX REG_EAX)
    ∧ (REG8_INDX REG_AH = REG32_INDX REG_EAX ∧
       REG8_INDX REG_AL = REG32_INDX REG_EAX ∧
       REG8_INDX REG_CH = REG32_INDX REG_ECX ∧
       REG8_INDX REG_CL = REG32_INDX REG_ECX ∧
       REG8_INDX REG_DH = REG32_INDX REG_EDX ∧
       REG8_INDX REG_DL = REG32_INDX REG_EDX ∧
       REG8_INDX REG_BH = REG32_INDX REG_EBX ∧
       REG8_INDX REG_BL = REG32_INDX REG_EBX)
    ∧ (r < REG_LAST → canon32 r = false →
        REG32_INDX r = GRP_NUM + r ∧ GRP_NUM ≤ REG32_INDX r)
    ∧ (r < REG_LAST → canon16 r = false →
        REG16_INDX r = GRP_NUM + r ∧ GRP_NUM ≤ REG16_INDX r)
    ∧ (r < REG_LAST → canon8 r = false →
        REG8_INDX r = GRP_NUM + r ∧ GRP_NUM ≤ REG8_INDX r)
    ∧ (canon32 r = false → canon32 s = false → r ≠ s →
        REG32_INDX r ≠ REG32_INDX s)
    ∧ (canon16 r = false → canon16 s = false → r ≠ s →
        REG16_INDX r ≠ REG16_INDX s)
    ∧ (canon8 r = false → canon8 s = false → r ≠ s →
        REG8_INDX r ≠ REG8_INDX s) := by
  refine ⟨by decide, by decide, by decide, ?_, ?_, ?_, ?_, ?_, ?_⟩
  · intro _ h
    rw [REG32_INDX_default r h]
    exact ⟨rfl, Nat.le_add_right _ _⟩
  · intro _ h
    rw [REG16_INDX_default r h]
    exact ⟨rfl, Nat.le_add_right _ _⟩
  · intro _ h
    rw [REG8_INDX_default r h]
    exact ⟨rfl, Nat.le_add_right _ _⟩
  · intro hr hs hne
    rw [REG32_INDX_default r hr, REG32_INDX_default s hs]
    omega
  · intro hr hs hne
    rw [REG16_INDX_default r hr, REG16_INDX_default s hs]
    omega
  · intro hr hs hne
    rw [REG8_INDX_default r hr, REG8_INDX_default s hs]
    omega

/-- Witness for C2: the unmapped identifiers 50 and 51 land on distinct
overflow slots at or beyond the canonical range. -/
theorem reg_indx_spec_witness :
    (REG32_INDX 50 = GRP_NUM + 50 ∧ GRP_NUM ≤ REG32_INDX 50)
    ∧ REG32_INDX 50 ≠ REG32_INDX 51 :=
  ⟨(reg_indx_spec 50 51).2.2.2.1 (by decide) (by decide),
   (reg_indx_spec 50 51).2.2.2.2.2.2.1 (by decide) (by decide) (by decide)⟩

/-- C7: each registration operation fails (returns 1) exactly on a null
descriptor pointer, on a null callback pointer for the two set-hook
operations, or on an action value other than `INSDFL_ENABLE` and
`INSDFL_DISABLE` for `ins_set_dflact`; in every failure case the
descriptor is left unchanged, and in every other case the operation
performs its single-field update and returns 0. -/
theorem ins_registration_spec (dd : ins_desc_t) (ff : CB) (act : Nat) :
    (act ≠ INSDFL_ENABLE → act ≠ INSDFL_DISABLE →
        ins_set_dflact (some dd) act = (1, some dd))
    ∧ ins_set_pre none (some ff) = (1, none)
    ∧ ins_set_pre none none = (1, none)
    ∧ ins_set_pre (some dd) none = (1, some dd)
    ∧ ins_set_pre (some dd) (some ff) = (0, some { dd with pre := some ff })
    ∧ ins_set_post none (some ff) = (1, none)
    ∧ ins_set_post none none = (1, none)
    ∧ ins_set_post (some dd) none = (1, some dd)
    ∧ ins_set_post (some dd) (some ff) = (0, some { dd with post := some ff })
    ∧ ins_clr_pre none = (1, none)
    ∧ ins_clr_pre (some dd) = (0, some { dd with pre := none })
    ∧ ins_clr_post none = (1, none)
    ∧ ins_clr_post (some dd) = (0, some { dd with post := none })
    ∧ ins_set_dflact none act = (1, none)
    ∧ ins_set_dflact (some dd) INSDFL_ENABLE
        = (0, some { dd with dflact := INSDFL_ENABLE })
    ∧ ins_set_dflact (some dd) INSDFL_DISABLE
        = (0, some { dd with dflact := INSDFL_DISABLE }) := by
  refine ⟨?_, rfl, rfl, rfl, rfl, rfl, rfl, rfl, rfl, rfl, rfl, rfl, rfl, ?_, ?_, ?_⟩
  · intro h1 h2
    simp [ins_set_dflact, h1, h2]
  · cases act <;> rfl
  · simp [ins_set_dflact]
  · simp [ins_set_dflact, INSDFL_ENABLE, INSDFL_DISABLE]

/-- Witness for C7: the out-of-range action value 5 is rejected and the
descriptor left unchanged. -/
theorem ins_registration_spec_witness :
    ins_set_dflact (some ⟨none, none, 0⟩) 5 = (1, some ⟨none, none, 0⟩) :=
  (ins_registration_spec ⟨none, none, 0⟩ 0 5).1 (by decide) (by decide)

/-- C8: the exception handler's verdict is a complete case analysis: a
misaligned-access fault gets the handled verdict with the
alignment-check bit (bit 18) of the physical EFLAGS cleared and all
other bits kept; an access-denied fault whose page equals the guard
region `null_seg` terminates the application; any other fault —
including an access-denied fault at any other page — gets the unhandled
verdict with the state unmodified. -/
theorem excpt_hdlr_spec (null_seg : Nat) (e : ExceptInfo) (p : PhysicalContext) :
    (e.code = ExceptCode.accessMisaligned →
        excpt_hdlr null_seg e p
          = (ExceptVerdict.handled, { eflags := CLEAR_EFLAGS_AC p.eflags })
        ∧ CLEAR_EFLAGS_AC p.eflags % 262144 = p.eflags % 262144
        ∧ CLEAR_EFLAGS_AC p.eflags / 262144 % 2 = 0
        ∧ CLEAR_EFLAGS_AC p.eflags / 524288 = p.eflags / 524288)
    ∧ (e.code = ExceptCode.accessDenied → PAGE_ALIGN e.faultAddr = null_seg →
        excpt_hdlr null_seg e p = (ExceptVerdict.terminated (-1), p))
    ∧ (e.code = ExceptCode.accessDenied → PAGE_ALIGN e.faultAddr ≠ null_seg →
        excpt_hdlr null_seg e p = (ExceptVerdict.unhandled, p))
    ∧ (∀ c, e.code = ExceptCode.other c →
        excpt_hdlr null_seg e p = (ExceptVerdict.unhandled, p)) := by
  refine ⟨?_, ?_, ?_, ?_⟩
  · intro h
    refine ⟨by simp [excpt_hdlr, h], ?_, ?_, ?_⟩ <;>
      · unfold CLEAR_EFLAGS_AC
        omega
  · intro h hp
    simp [excpt_hdlr, h, hp]
  · intro h hp
    simp [excpt_hdlr, h, hp]
  · intro c h
    simp [excpt_hdlr, h]

/-- Witness for C8: an access-denied fault away from the guard page is
reported unhandled with the state untouched. -/
theorem excpt_hdlr_spec_witness :
    excpt_hdlr 0 ⟨ExceptCode.accessDenied, 4096⟩ ⟨5⟩
      = (ExceptVerdict.unhandled, ⟨5⟩) :=
  (excpt_hdlr_spec 0 ⟨ExceptCode.accessDenied, 4096⟩ ⟨5⟩).2.2.1 rfl (by decide)

/-- C9 counterexample: on a descriptor that already has a pre-hook
registered, installing and then clearing a pre-hook does not restore the
previous dispatch behavior — the original hook is gone and its event no
longer fires. -/
theorem ins_roundtrip_cex :
    (ins_clr_pre (ins_set_pre (some ⟨some 3, none, 1⟩) (some 7)).2).2
      = some ⟨none, none, 1⟩
    ∧ ins_dispatch ⟨none, none, 1⟩ 0 [] = []
    ∧ ins_dispatch ⟨some 3, none, 1⟩ 0 [] = [InsEvent.preHook 3 0] :=
  ⟨rfl, rfl, rfl⟩

/-- C9 (amended): `ins_set_pre` followed by `ins_clr_pre` restores the
descriptor — hence its dispatch behavior — exactly when the descriptor
had no pre-hook registered beforehand (whatever its post-hook and
default action), and likewise `ins_set_post` followed by `ins_clr_post`
when no post-hook was registered; in general the round trip always
leaves the hook of its kind cleared, so a previously registered hook is
erased rather than restored. -/
theorem ins_roundtrip_fresh (dd : ins_desc_t) (f g : CB) :
    (dd.pre = none →
        (ins_clr_pre (ins_set_pre (some dd) (some f)).2).2 = some dd)
    ∧ (dd.post = none →
        (ins_clr_post (ins_set_post (some dd) (some g)).2).2 = some dd)
    ∧ (ins_clr_pre (ins_set_pre (some dd) (some f)).2).2
        = some { dd with pre := none }
    ∧ (ins_clr_post (ins_set_post (some dd) (some g)).2).2
        = some { dd with post := none } := by
  refine ⟨?_, ?_, rfl, rfl⟩
  · intro h
    obtain ⟨p, q, m⟩ := dd
    simp_all [ins_set_pre, ins_clr_pre]
  · intro h
    obtain ⟨p, q, m⟩ := dd
    simp_all [ins_set_post, ins_clr_post]

/-- Witness for C9: the pre round trip is the identity on a descriptor
with no pre-hook but a registered post-hook. -/
theorem ins_roundtrip_fresh_witness :
    (ins_clr_pre (ins_set_pre (some ⟨none, some 2, 0⟩) (some 5)).2).2
      = some ⟨none, some 2, 0⟩ :=
  (ins_roundtrip_fresh ⟨none, some 2, 0⟩ 5 6).1 rfl

/-- C4: trace inspection dispatches every instruction of every basic
block, blocks in program order and instructions within each block in
program order; dispatch for an instruction's opcode class performs
exactly three stages in order — the pre-hook iff it is non-null, the
built-in analyzer iff the default action equals `INSDFL_ENABLE`, the
post-hook iff it is non-null; and setting the default action to
`INSDFL_DISABLE` suppresses exactly the built-in analyzer event while
the registered hooks still fire. -/
theorem trace_dispatch_spec (tbl : Nat → ins_desc_t) (opcodeOf : INS → Nat)
    (trace : List (List INS)) (d : ins_desc_t) (ins : INS) :
    trace_inspect tbl opcodeOf trace
      = trace.flatMap (fun bbl =>
          bbl.flatMap (fun i => ins_dispatch (tbl (opcodeOf i)) i []))
    ∧ ins_dispatch d ins []
      = ((match d.pre with
          | some f => [InsEvent.preHook f ins]
          | none => ([] : List InsEvent))
        ++ (if d.dflact = INSDFL_ENABLE then [InsEvent.builtin ins] else [])
        ++ (match d.post with
            | some f => [InsEvent.postHook f ins]
            | none => ([] : List InsEvent)))
    ∧ ins_dispatch { d with dflact := INSDFL_DISABLE } ins []
      = (ins_dispatch d ins []).filter (fun e => !e.isBuiltin) := by
  refine ⟨?_, ?_, ?_⟩
  · unfold trace_inspect
    rw [foldl_trace_dispatch]
    simp
  · cases hp : d.pre <;> cases hq : d.post <;>
      by_cases h : d.dflact = INSDFL_ENABLE <;>
      simp [ins_dispatch, hp, hq, h]
  · have hd : ¬(INSDFL_DISABLE = INSDFL_ENABLE) := by decide
    cases hp : d.pre <;> cases hq : d.post <;>
      by_cases h : d.dflact = INSDFL_ENABLE <;>
      simp [ins_dispatch, hp, hq, h, hd, InsEvent.isBuiltin, List.filter_append]

/-- C3: for a syscall number at or beyond `SYSCALL_MAX`, the enter
handler only logs and sets the context number to the sentinel `-1` —
capturing no arguments, storing no processor-state reference and
invoking no pre-callback — and the exit handler, seeing the sentinel,
only logs and returns, capturing no return value, invoking no
post-callback and clearing no shadow-memory tag bytes. -/
theorem syscall_unknown_noop (desc : Nat → syscall_desc_t) (SYSCALL_MAX : Nat)
    (syscall_nr : Nat) (getArg : Nat → Nat) (ctxRef : Nat) (sc : syscall_ctx_t)
    (retVal : Int) (ctxRef2 : Nat) (tag : Nat → Bool)
    (h : SYSCALL_MAX ≤ syscall_nr) :
    sysenter_save desc SYSCALL_MAX syscall_nr getArg ctxRef sc
      = { sctx := { sc with nr := -1 }, preCalled := false, logged := true }
    ∧ sysexit_save desc retVal ctxRef2 { sc with nr := -1 } tag
      = { sctx := { sc with nr := -1 }, tag := tag, postCalled := false,
          logged := true } := by
  obtain ⟨nr0, arg0, ret0, aux0⟩ := sc
  constructor
  · unfold sysenter_save
    rw [if_pos h]
  · have h0 : ((-1 : Int) < 0) := by omega
    simp [sysexit_save, h0]

/-- Witness for C3: syscall number 7 against a table of bound 1. -/
theorem syscall_unknown_noop_witness :
    sysenter_save (fun _ => ⟨0, false, false, (fun _ => 0), none, none⟩) 1 7
        (fun _ => 9) 4 ⟨0, (fun _ => 2), 6, some 3⟩
      = { sctx := { nr := -1, arg := fun _ => 2, ret := 6, aux := some 3 },
          preCalled := false, logged := true }
    ∧ sysexit_save (fun _ => ⟨0, false, false, (fun _ => 0), none, none⟩) 5 7
        { nr := -1, arg := fun _ => 2, ret := 6, aux := some 3 } (fun _ => true)
      = { sctx := { nr := -1, arg := fun _ => 2, ret := 6, aux := some 3 },
          tag := fun _ => true, postCalled := false, logged := true } :=
  syscall_unknown_noop (fun _ => ⟨0, false, false, (fun _ => 0), none, none⟩) 1 7
    (fun _ => 9) 4 ⟨0, (fun _ => 2), 6, some 3⟩ 5 7 (fun _ => true) (by decide)

/-- C6: for a known syscall whose descriptor has both capture flags
clear, the enter handler stores only the syscall number — no argument
words, no state snapshot, no pre-callback even if one is registered —
and the exit handler does nothing at all: no return-value capture, no
post-callback even if one is registered, and no tag clearing regardless
of the write-back lengths. -/
theorem syscall_noflags_noop (desc : Nat → syscall_desc_t) (SYSCALL_MAX n : Nat)
    (getArg : Nat → Nat) (ctxRef : Nat) (sc : syscall_ctx_t)
    (retVal : Int) (ctxRef2 : Nat) (tag : Nat → Bool)
    (hn : n < SYSCALL_MAX)
    (hsave : (desc n).save_args = false)
    (hret : (desc n).retval_args = false) :
    sysenter_save desc SYSCALL_MAX n getArg ctxRef sc
      = { sctx := { sc with nr := (n : Int) }, preCalled := false,
          logged := false }
    ∧ sysexit_save desc retVal ctxRef2 { sc with nr := (n : Int) } tag
      = { sctx := { sc with nr := (n : Int) }, tag := tag, postCalled := false,
          logged := false } := by
  obtain ⟨nr0, arg0, ret0, aux0⟩ := sc
  have h0 : ¬((n : Int) < 0) := by omega
  constructor
  · unfold sysenter_save
    rw [if_neg (by omega)]
    simp [hsave, hret]
  · simp [sysexit_save, h0, Int.toNat_natCast, hsave, hret]

/-- Witness for C6: a flag-free descriptor with registered callbacks and
non-zero write-back lengths still yields a pure number store on enter
and a complete no-op on exit. -/
theorem syscall_noflags_noop_witness :
    sysenter_save (fun _ => ⟨3, false, false, (fun _ => 4), some 8, some 9⟩) 2 1
        (fun _ => 9) 4 ⟨0, (fun _ => 2), 6, none⟩
      = { sctx := { nr := 1, arg := fun _ => 2, ret := 6, aux := none },
          preCalled := false, logged := false }
    ∧ sysexit_save (fun _ => ⟨3, false, false, (fun _ => 4), some 8, some 9⟩) 5 7
        { nr := 1, arg := fun _ => 2, ret := 6, aux := none } (fun _ => true)
      = { sctx := { nr := 1, arg := fun _ => 2, ret := 6, aux := none },
          tag := fun _ => true, postCalled := false, logged := false } :=
  syscall_noflags_noop (fun _ => ⟨3, false, false, (fun _ => 4), some 8, some 9⟩)
    2 1 (fun _ => 9) 4 ⟨0, (fun _ => 2), 6, none⟩ 5 7 (fun _ => true)
    (by decide) rfl rfl

/-- C5: for a known syscall whose descriptor has "save arguments" or
"return feeds callback" set, the enter handler stores the number,
captures exactly `min nargs 6` raw argument words — words 0 through
`min nargs 6 - 1` — leaving the slots at and beyond that count
unmodified, snapshots the processor-state reference, and reports the
pre-callback invoked iff one is registered. -/
theorem sysenter_capture_spec (desc : Nat → syscall_desc_t) (SYSCALL_MAX n : Nat)
    (getArg : Nat → Nat) (ctxRef : Nat) (sc : syscall_ctx_t)
    (hn : n < SYSCALL_MAX)
    (hflag : ((desc n).save_args || (desc n).retval_args) = true)
    (hnargs : (desc n).nargs ≤ 6) :
    sysenter_save desc SYSCALL_MAX n getArg ctxRef sc
      = { sctx :=
            { sc with
              nr := (n : Int),
              arg := sys_saveargs_switch getArg (desc n).nargs sc.arg,
              aux := some ctxRef },
          preCalled := (desc n).pre.isSome, logged := false }
    ∧ ∀ i, sys_saveargs_switch getArg (desc n).nargs sc.arg i
        = if i < min (desc n).nargs 6 then getArg i else sc.arg i := by
  obtain ⟨nr0, arg0, ret0, aux0⟩ := sc
  constructor
  · unfold sysenter_save
    rw [if_neg (by omega)]
    simp [hflag]
  · intro i
    rw [Nat.min_eq_left hnargs]
    exact sys_saveargs_switch_apply getArg (desc n).nargs hnargs _ i

/-- Witness for C5: a two-argument descriptor with "save arguments" set
and a registered pre-callback. -/
theorem sysenter_capture_spec_witness :
    sysenter_save (fun _ => ⟨2, true, false, (fun _ => 0), some 8, none⟩) 3 1
        (fun _ => 9) 4 ⟨0, (fun _ => 2), 6, none⟩
      = { sctx := { nr := 1, arg := sys_saveargs_switch (fun _ => 9) 2 (fun _ => 2),
                    ret := 6, aux := some 4 },
          preCalled := true, logged := false }
    ∧ sys_saveargs_switch (fun _ => 9) 2 (fun _ => 2) 0 = 9 :=
  have h := sysenter_capture_spec (fun _ => ⟨2, true, false, (fun _ => 0), some 8, none⟩)
    3 1 (fun _ => 9) 4 ⟨0, (fun _ => 2), 6, none⟩ (by decide) (by decide) (by decide)
  ⟨h.1, h.2 0⟩

/-- C1: for a known syscall with "return feeds callback" (or "save
arguments") set and no post-callback registered, the default exit
policy clears no tag bytes when the captured return value is negative;
when it is zero or positive, the resulting tag store has exactly the
bytes covered by some argument of positive write-back length and
non-null captured address cleared, and every byte outside those ranges
keeps its previous tag. -/
theorem sysexit_default_policy (desc : Nat → syscall_desc_t) (retVal : Int)
    (ctxRef : Nat) (sc : syscall_ctx_t) (tag : Nat → Bool) (n : Nat)
    (hnr : sc.nr = (n : Int))
    (hflag : ((desc n).save_args || (desc n).retval_args) = true)
    (hpost : (desc n).post = none) :
    (retVal < 0 → (sysexit_save desc retVal ctxRef sc tag).tag = tag)
    ∧ (0 ≤ retVal → ∀ a,
        (sysexit_save desc retVal ctxRef sc tag).tag a
          = if cleared_by_default_policy (desc n) sc.arg a then false
            else tag a) := by
  obtain ⟨nr0, arg0, ret0, aux0⟩ := sc
  simp only at hnr
  subst hnr
  have h0 : ¬((n : Int) < 0) := by omega
  constructor
  · intro hret
    simp [sysexit_save, h0, Int.toNat_natCast, hflag, hpost, hret]
  · intro hret a
    have hret2 : ¬(retVal < 0) := by omega
    simp [sysexit_save, h0, Int.toNat_natCast, hflag, hpost, hret2]
    rw [sysexit_clear_args_apply (desc n) arg0 tag a]
    cases cleared_by_default_policy (desc n) arg0 a <;> simp

/-- Witness for C1: return value 5 on a save-args-only descriptor with
write-back length 3 at argument 0 (captured address 100); byte 101
falls in the cleared range. -/
theorem sysexit_default_policy_witness :
    (sysexit_save (fun _ => ⟨2, true, false, (fun i => if i = 0 then 3 else 0), none, none⟩)
        5 1 ⟨0, (fun _ => 100), 0, none⟩ (fun _ => true)).tag 101
      = if cleared_by_default_policy
            ⟨2, true, false, (fun i => if i = 0 then 3 else 0), none, none⟩
            (fun _ => 100) 101 then false
        else (fun _ => true) 101 :=
  (sysexit_default_policy
      (fun _ => ⟨2, true, false, (fun i => if i = 0 then 3 else 0), none, none⟩)
      5 1 ⟨0, (fun _ => 100), 0, none⟩ (fun _ => true) 0 rfl rfl rfl).2
    (by decide) 101

/-- C10 counterexample: for a known syscall whose descriptor has both
capture flags clear, the enter handler does not freshly repopulate the
argument words or the processor-state reference — slot 0 keeps the
previous syscall's value 42 although the current raw word is 1, and
`aux` keeps the previous reference 99 although the current one is 11. -/
theorem sysenter_overwrite_cex :
    (sysenter_save (fun _ => ⟨2, false, false, (fun _ => 0), none, none⟩) 5 0
        (fun _ => 1) 11 ⟨3, (fun _ => 42), 7, some 99⟩).sctx.arg 0 = 42
    ∧ (sysenter_save (fun _ => ⟨2, false, false, (fun _ => 0), none, none⟩) 5 0
        (fun _ => 1) 11 ⟨3, (fun _ => 42), 7, some 99⟩).sctx.aux = some 99
    ∧ (42 : Nat) ≠ 1 ∧ (some 99 : Option Nat) ≠ some 11 :=
  ⟨rfl, rfl, by decide, by decide⟩

/-- C10 (amended): on every syscall-enter the number field is freshly
stored — the syscall number for a known syscall, the sentinel `-1` for
an unknown one; the argument words and the processor-state reference
are freshly repopulated only for a known syscall whose descriptor has
"save arguments" or "return feeds callback" set — and then only the
argument slots below the declared count — while in all other cases
(flags clear, or unknown syscall) those fields, and always the
return-value field, retain the previous syscall's values. -/
theorem sysenter_overwrite_spec (desc : Nat → syscall_desc_t) (SYSCALL_MAX n : Nat)
    (getArg : Nat → Nat) (ctxRef : Nat) (sc : syscall_ctx_t)
    (hnargs : (desc n).nargs ≤ 6) :
    (SYSCALL_MAX ≤ n →
        sysenter_save desc SYSCALL_MAX n getArg ctxRef sc
          = { sctx := { sc with nr := -1 }, preCalled := false, logged := true })
    ∧ (n < SYSCALL_MAX →
        (sysenter_save desc SYSCALL_MAX n getArg ctxRef sc).sctx.nr = (n : Int)
        ∧ (((desc n).save_args || (desc n).retval_args) = true →
            (sysenter_save desc SYSCALL_MAX n getArg ctxRef sc).sctx.aux
              = some ctxRef
            ∧ ∀ i, (sysenter_save desc SYSCALL_MAX n getArg ctxRef sc).sctx.arg i
                = if i < (desc n).nargs then getArg i else sc.arg i)
        ∧ (((desc n).save_args || (desc n).retval_args) = false →
            (sysenter_save desc SYSCALL_MAX n getArg ctxRef sc).sctx.arg = sc.arg
            ∧ (sysenter_save desc SYSCALL_MAX n getArg ctxRef sc).sctx.aux
              = sc.aux)
        ∧ (sysenter_save desc SYSCALL_MAX n getArg ctxRef sc).sctx.ret
            = sc.ret) := by
  obtain ⟨nr0, arg0, ret0, aux0⟩ := sc
  refine ⟨?_, ?_⟩
  · intro hu
    unfold sysenter_save
    rw [if_pos hu]
  intro hn
  by_cases hg : ((desc n).save_args || (desc n).retval_args) = true
  · have hE : sysenter_save desc SYSCALL_MAX n getArg ctxRef ⟨nr0, arg0, ret0, aux0⟩
        = { sctx := ⟨(n : Int), sys_saveargs_switch getArg (desc n).nargs arg0,
                     ret0, some ctxRef⟩,
            preCalled := (desc n).pre.isSome, logged := false } := by
      unfold sysenter_save
      rw [if_neg (by omega)]
      simp [hg]
    rw [hE]
    refine ⟨rfl, fun _ => ⟨rfl, fun i => ?_⟩, fun hg2 => ?_, rfl⟩
    · exact sys_saveargs_switch_apply getArg (desc n).nargs hnargs _ i
    · rw [hg] at hg2
      cases hg2
  · have hg2 : ((desc n).save_args || (desc n).retval_args) = false := by
      simpa using hg
    have hE : sysenter_save desc SYSCALL_MAX n getArg ctxRef ⟨nr0, arg0, ret0, aux0⟩
        = { sctx := ⟨(n : Int), arg0, ret0, aux0⟩,
            preCalled := false, logged := false } := by
      unfold sysenter_save
      rw [if_neg (by omega)]
      simp [hg2]
    rw [hE]
    refine ⟨rfl, fun hg3 => ?_, fun _ => ⟨rfl, rfl⟩, rfl⟩
    rw [hg2] at hg3
    cases hg3

/-- Witness for C10 (amended): a one-argument descriptor with "save
arguments" set freshly stores argument slot 0, and an unknown syscall
number stores only the sentinel. -/
theorem sysenter_overwrite_spec_witness :
    (sysenter_save (fun _ => ⟨1, true, false, (fun _ => 0), none, none⟩) 2 0
        (fun _ => 9) 4 ⟨0, (fun _ => 2), 0, none⟩).sctx.arg 0 = 9
    ∧ sysenter_save (fun _ => ⟨1, true, false, (fun _ => 0), none, none⟩) 2 7
        (fun _ => 9) 4 ⟨0, (fun _ => 2), 0, none⟩
      = { sctx := { nr := -1, arg := fun _ => 2, ret := 0, aux := none },
          preCalled := false, logged := true } :=
  ⟨((((sysenter_overwrite_spec (fun _ => ⟨1, true, false, (fun _ => 0), none, none⟩)
        2 0 (fun _ => 9) 4 ⟨0, (fun _ => 2), 0, none⟩ (by decide)).2
      (by decide)).2.1) rfl).2 0,
   (sysenter_overwrite_spec (fun _ => ⟨1, true, false, (fun _ => 0), none, none⟩)
        2 7 (fun _ => 9) 4 ⟨0, (fun _ => 2), 0, none⟩ (by decide)).1 (by decide)⟩

end Libdft
